/-
Verification of the aggregation & comparison engine of the sales
comparison dashboard (src/sales_comparison_app.py).

Embedding notes:
  * A pandas record row becomes a `SalesRec`.  `purchase_date` is the
    already-parsed timestamp; `none` models a value that
    `pd.to_datetime(..., errors='coerce')` turned into `NaT`.
  * Quantities are modelled as `Int` (the CSV column is an integer dtype);
    derived percentage fields, which pandas computes in floating point,
    are modelled as exact rationals `ℚ`.
  * A pandas groupby result / python dict keyed by month is modelled as an
    association list `List (Nat × Int)` with pairwise-distinct keys;
    dict lookup `d.get(m, 0)` becomes `mget`.
  * `create_comparison_table` and `create_sku_level_data` receive lists of
    record dicts (`df.to_dict('records')`).  When such a list is empty,
    `pd.DataFrame([])` produces a frame with NO columns, so the very first
    `groupby('asin')` (resp. `groupby('sku')`) raises `KeyError`; this is
    modelled with `Except.error`.  The trailing inventory left-join in both
    functions is guarded by `if not inventory_df.empty:` and only appends
    extra columns; the no-inventory path is the one modelled here (none of
    the verified properties concern the inventory columns).
-/
import Mathlib

/-- A preprocessed sales record, one line of `cleaned_data/{year}_sales.csv`
as loaded by `load_sales_data`. -/
structure SalesRec where
  sku : String
  asin : String
  purchase_date : Option Int
  quantity : Int
  month : Nat
deriving DecidableEq

/-- The date-cutoff filter inside `load_sales_data` (lines 24-28):
`df = df[df['purchase_datetime'] <= cutoff_date]`.  A record whose raw date
string failed to parse has `purchase_datetime = NaT` (here `none`), and in
pandas `NaT <= cutoff` is `False`, so such a record is silently dropped; no
exception is raised. -/
def filterToCutoff (cutoff : Int) (rs : List SalesRec) : List SalesRec :=
  rs.filter (fun r =>
    match r.purchase_date with
    | some d => decide (d ≤ cutoff)
    | none => false)

/-- Distinct keys of a groupby: `df.groupby(key)` groups by the distinct
values of the key column.  The key selector is either `SalesRec.asin`
(`create_comparison_table`) or `SalesRec.sku` (`create_sku_level_data`). -/
def keysOf (key : SalesRec → String) (rs : List SalesRec) : List String :=
  (rs.map key).dedup

/-- Groupwise total: `df.groupby(key)['quantity'].sum()` evaluated at one
key value `k` (0 when the key does not occur, matching the later
`.fillna(0)` after the outer merge). -/
def groupTotal (key : SalesRec → String) (rs : List SalesRec) (k : String) : Int :=
  ((rs.filter (fun r => key r == k)).map SalesRec.quantity).sum

/-- Boolean string comparison evaluating on the underlying character
lists; agrees with the linear order on `String` (see `strLe_iff`). -/
def strLe (a b : String) : Bool := !(decide (b.toList < a.toList))

/-- Propositional form of `strLe`, used as the sort relation. -/
def strLeP (a b : String) : Prop := strLe a b = true

instance : DecidableRel strLeP := fun a b => by
  unfold strLeP
  infer_instance

/-- Python `sorted(set(xs))` on a list of strings: distinct values in
ascending order. -/
def sortedSet (l : List String) : List String :=
  List.insertionSort strLeP l.dedup

/-- Months present for key `k`: the `month` level of the index of
`df.groupby([key, 'month'])['quantity'].sum()` restricted to `k` (pandas
returns the group keys in ascending order). -/
def monthsOf (key : SalesRec → String) (rs : List SalesRec) (k : String) : List Nat :=
  List.insertionSort (fun a b => a ≤ b)
    (((rs.filter (fun r => key r == k)).map SalesRec.month).dedup)

/-- Total quantity of key `k` in month `m`:
`df.groupby([key, 'month'])['quantity'].sum()` at `(k, m)`. -/
def monthTotal (key : SalesRec → String) (rs : List SalesRec) (k : String) (m : Nat) : Int :=
  ((rs.filter (fun r => key r == k && r.month == m)).map SalesRec.quantity).sum

/-- The per-key monthly dict `dict(zip(x['month'], x['quantity']))` built
from the `(key, month)` aggregation; for a key with no records this is the
empty dict (the `.apply(lambda x: x if isinstance(x, dict) else ...)`
fallback after `.map(monthly_dict)`). -/
def monthlyOf (key : SalesRec → String) (rs : List SalesRec) (k : String) : List (Nat × Int) :=
  (monthsOf key rs k).map (fun m => (m, monthTotal key rs k m))

/-- Python dict lookup with default: `d.get(m, 0)`. -/
def mget (l : List (Nat × Int)) (m : Nat) : Int :=
  match l.find? (fun p => p.1 == m) with
  | some p => p.2
  | none => 0

/-- Percent-change formula shared by lines 104-107 and 176-179:
`round((difference / total_2024 * 100), 1) if total_2024 > 0 else 0`. -/
def round1 (q : ℚ) : ℚ := ((round (q * 10) : ℤ) : ℚ) / 10

/-- Percent change of `diff` relative to base `base`, exactly the lambda of
lines 104-107 / 176-179. -/
def changePct (base diff : Int) : ℚ :=
  if 0 < base then round1 ((diff : ℚ) / (base : ℚ) * 100) else 0

/-- Sorted distinct SKUs of the group of `k`:
`'sku': lambda x: sorted(set(x))` in the `.agg` of lines 136-146, with the
`.apply(lambda x: x if isinstance(x, list) else [])` fallback giving `[]`
for a key absent from that year. -/
def skusOf (rs : List SalesRec) (k : String) : List String :=
  sortedSet ((rs.filter (fun r => r.asin == k)).map SalesRec.sku)

/-- One row of the merged `comparison` frame of `create_comparison_table`
(lines 160-195), for ASIN key `k`. -/
structure CompRow where
  asin : String
  all_skus : List String
  skus_str : String
  total_2024 : Int
  total_2025 : Int
  difference : Int
  change_pct : ℚ
  monthly_2024 : List (Nat × Int)
  monthly_2025 : List (Nat × Int)
deriving DecidableEq

/-- Row of `create_comparison_table` for ASIN `k`, after the outer merge,
the `fillna`, the SKU union, the difference / percent-change columns and
the monthly dict columns (lines 160-195). -/
def mkCompRow (rs24 rs25 : List SalesRec) (k : String) : CompRow :=
  { asin := k
    all_skus := sortedSet (skusOf rs24 k ++ skusOf rs25 k)
    skus_str := String.intercalate (", ") (sortedSet (skusOf rs24 k ++ skusOf rs25 k))
    total_2024 := groupTotal SalesRec.asin rs24 k
    total_2025 := groupTotal SalesRec.asin rs25 k
    difference := groupTotal SalesRec.asin rs25 k - groupTotal SalesRec.asin rs24 k
    change_pct := changePct (groupTotal SalesRec.asin rs24 k)
      (groupTotal SalesRec.asin rs25 k - groupTotal SalesRec.asin rs24 k)
    monthly_2024 := monthlyOf SalesRec.asin rs24 k
    monthly_2025 := monthlyOf SalesRec.asin rs25 k }

/-- Key set of `pd.merge(agg_a, agg_b, on=key, how='outer')`: every key of
either side, each exactly once. -/
def outerKeys (ka kb : List String) : List String :=
  ka ++ kb.filter (fun k => !(decide (k ∈ ka)))

/-- Model of `create_comparison_table(year_2024_data, year_2025_data, ...)`
(lines 128-218).  When one year's record list is empty, `pd.DataFrame([])`
has no columns and the `groupby('asin')` of line 136 (resp. 142) raises
`KeyError`, modelled as `Except.error`; otherwise one `CompRow` per ASIN
occurring in either year. -/
def createComparisonTable (rs24 rs25 : List SalesRec) : Except String (List CompRow) :=
  if rs24.isEmpty then Except.error ("KeyError asin")
  else if rs25.isEmpty then Except.error ("KeyError asin")
  else Except.ok
    ((outerKeys (keysOf SalesRec.asin rs24) (keysOf SalesRec.asin rs25)).map
      (mkCompRow rs24 rs25))

/-- First ASIN observed for SKU `s`, in input order:
`df.groupby('sku').agg({'asin': 'first'})` / `groupby('sku')['asin'].first()`
evaluated at `s`, `none` when `s` has no records. -/
def firstAsin (rs : List SalesRec) (s : String) : Option String :=
  (rs.find? (fun r => r.sku == s)).map SalesRec.asin

/-- One row of the `sku_data` frame of `create_sku_level_data`
(lines 89-111). -/
structure SkuRow where
  sku : String
  asin : String
  total_2024 : Int
  total_2025 : Int
  difference : Int
  change_pct : ℚ
  monthly_2024 : List (Nat × Int)
  monthly_2025 : List (Nat × Int)
deriving DecidableEq

/-- Row of `create_sku_level_data` for SKU `s`: totals filled with 0 after
the outer merge, the ASIN taken from 2024 first (`'asin': 'first'`), else
filled from the 2025 map (line 98), else the sentinel of line 100. -/
def mkSkuRow (rs24 rs25 : List SalesRec) (s : String) : SkuRow :=
  { sku := s
    asin := (firstAsin rs24 s).getD ((firstAsin rs25 s).getD ("N/A"))
    total_2024 := groupTotal SalesRec.sku rs24 s
    total_2025 := groupTotal SalesRec.sku rs25 s
    difference := groupTotal SalesRec.sku rs25 s - groupTotal SalesRec.sku rs24 s
    change_pct := changePct (groupTotal SalesRec.sku rs24 s)
      (groupTotal SalesRec.sku rs25 s - groupTotal SalesRec.sku rs24 s)
    monthly_2024 := monthlyOf SalesRec.sku rs24 s
    monthly_2025 := monthlyOf SalesRec.sku rs25 s }

/-- Model of `create_sku_level_data(year_2024_data, year_2025_data, ...)`
(lines 55-125).  As with `createComparisonTable`, an empty record list for
either year makes `groupby('sku')` (line 63 resp. 76) raise `KeyError`. -/
def createSkuLevelData (rs24 rs25 : List SalesRec) : Except String (List SkuRow) :=
  if rs24.isEmpty then Except.error ("KeyError sku")
  else if rs25.isEmpty then Except.error ("KeyError sku")
  else Except.ok
    ((outerKeys (keysOf SalesRec.sku rs24) (keysOf SalesRec.sku rs25)).map
      (mkSkuRow rs24 rs25))

/-- One row of the monthly breakdown table (`monthly_data.append(...)`). -/
structure MonthRow where
  month_name : String
  qty_a : Int
  qty_b : Int
  difference : Int
  change_pct : ℚ
deriving DecidableEq

/-- English month names, `datetime(2024, month, 1).strftime('%B')` for
`month` in 1..12. -/
def monthNames : List String :=
  ["January", "February", "March", "April", "May", "June",
   "July", "August", "September", "October", "November", "December"]

/-- Monthly breakdown loop of the per-SKU view (lines 488-503):
`for month in list(range(1, 13))`, with `qty = monthly.get(month, 0)` and
the same guarded percent change as the totals, rounded to one decimal. -/
def monthlyBreakdownSku (ma mb : List (Nat × Int)) : List MonthRow :=
  (List.range 12).map (fun i =>
    { month_name := monthNames.getD i ("")
      qty_a := mget ma (i + 1)
      qty_b := mget mb (i + 1)
      difference := mget mb (i + 1) - mget ma (i + 1)
      change_pct := round1
        (if 0 < mget ma (i + 1) then
          (((mget mb (i + 1) : ℚ)) - ((mget ma (i + 1) : ℚ))) / ((mget ma (i + 1) : ℚ)) * 100
        else 0) })

/-- Monthly breakdown loop of the per-ASIN view (lines 544-559); the loop
body is written out a second time in the source but is the same
computation. -/
def monthlyBreakdownAsin (ma mb : List (Nat × Int)) : List MonthRow :=
  (List.range 12).map (fun i =>
    { month_name := monthNames.getD i ("")
      qty_a := mget ma (i + 1)
      qty_b := mget mb (i + 1)
      difference := mget mb (i + 1) - mget ma (i + 1)
      change_pct := round1
        (if 0 < mget ma (i + 1) then
          (((mget mb (i + 1) : ℚ)) - ((mget ma (i + 1) : ℚ))) / ((mget ma (i + 1) : ℚ)) * 100
        else 0) })

/-- Percent-change policy of the spec (section 4.3): rounded ratio when the
base is positive, exactly 0 when the base is 0. -/
def pctPolicy (base diff : Int) (pct : ℚ) : Prop :=
  (0 < base → pct = round1 ((diff : ℚ) / (base : ℚ) * 100)) ∧ (base = 0 → pct = 0)

/-! ### Order and sorting lemmas -/

theorem strLe_iff (a b : String) : strLeP a b ↔ a ≤ b := by
  simp [strLeP, strLe, String.le_iff_toList_le]

instance : IsTotal String strLeP :=
  ⟨fun a b => by
    rcases le_total a b with h | h
    · exact Or.inl ((strLe_iff a b).mpr h)
    · exact Or.inr ((strLe_iff b a).mpr h)⟩

instance : IsTrans String strLeP :=
  ⟨fun a b c hab hbc =>
    (strLe_iff a c).mpr (le_trans ((strLe_iff a b).mp hab) ((strLe_iff b c).mp hbc))⟩

instance : IsAntisymm String strLeP :=
  ⟨fun a b hab hba => le_antisymm ((strLe_iff a b).mp hab) ((strLe_iff b a).mp hba)⟩

theorem mem_sortedSet {a : String} {l : List String} : a ∈ sortedSet l ↔ a ∈ l := by
  unfold sortedSet
  rw [(List.perm_insertionSort strLeP l.dedup).mem_iff, List.mem_dedup]

theorem nodup_sortedSet (l : List String) : (sortedSet l).Nodup :=
  ((List.perm_insertionSort strLeP l.dedup).symm.nodup (List.nodup_dedup l))

theorem sorted_sortedSet (l : List String) : List.Sorted strLeP (sortedSet l) :=
  List.sorted_insertionSort strLeP l.dedup

theorem sortedSet_eq_of_mem_iff {l₁ l₂ : List String}
    (h : ∀ a, a ∈ l₁ ↔ a ∈ l₂) : sortedSet l₁ = sortedSet l₂ := by
  refine List.eq_of_perm_of_sorted ?_ (sorted_sortedSet l₁) (sorted_sortedSet l₂)
  refine (List.perm_ext_iff_of_nodup (nodup_sortedSet l₁) (nodup_sortedSet l₂)).mpr ?_
  intro a
  rw [mem_sortedSet, mem_sortedSet]
  exact h a

/-! ### Outer-join key lemmas -/

theorem mem_outerKeys {ka kb : List String} {k : String} :
    k ∈ outerKeys ka kb ↔ k ∈ ka ∨ k ∈ kb := by
  unfold outerKeys
  simp only [List.mem_append, List.mem_filter, Bool.not_eq_true', decide_eq_false_iff_not]
  constructor
  · rintro (h | ⟨h, _⟩)
    · exact Or.inl h
    · exact Or.inr h
  · rintro (h | h)
    · exact Or.inl h
    · by_cases hka : k ∈ ka
      · exact Or.inl hka
      · exact Or.inr ⟨h, hka⟩

theorem nodup_outerKeys {ka kb : List String} (ha : ka.Nodup) (hb : kb.Nodup) :
    (outerKeys ka kb).Nodup := by
  refine List.Nodup.append ha (hb.filter _) ?_
  intro k hk hk'
  rcases List.mem_filter.mp hk' with ⟨_, hmem⟩
  rw [Bool.not_eq_true', decide_eq_false_iff_not] at hmem
  exact hmem hk

/-! ### Inversion lemmas for the table builders -/

theorem createComparisonTable_ok {rs24 rs25 : List SalesRec} {rows : List CompRow}
    (hok : createComparisonTable rs24 rs25 = Except.ok rows) :
    rows = (outerKeys (keysOf SalesRec.asin rs24) (keysOf SalesRec.asin rs25)).map
      (mkCompRow rs24 rs25) := by
  unfold createComparisonTable at hok
  split at hok
  · simp at hok
  · split at hok
    · simp at hok
    · simpa using hok.symm

theorem createSkuLevelData_ok {rs24 rs25 : List SalesRec} {rows : List SkuRow}
    (hok : createSkuLevelData rs24 rs25 = Except.ok rows) :
    rows = (outerKeys (keysOf SalesRec.sku rs24) (keysOf SalesRec.sku rs25)).map
      (mkSkuRow rs24 rs25) := by
  unfold createSkuLevelData at hok
  split at hok
  · simp at hok
  · split at hok
    · simp at hok
    · simpa using hok.symm

/-! ### Filter lemmas for absent keys -/

theorem filter_key_eq_nil {key : SalesRec → String} {rs : List SalesRec} {k : String}
    (h : k ∉ keysOf key rs) : rs.filter (fun r => key r == k) = [] := by
  rw [List.filter_eq_nil_iff]
  intro r hr
  simp only [beq_iff_eq]
  intro hkr
  exact h (List.mem_dedup.mpr (hkr ▸ List.mem_map_of_mem key hr))

theorem groupTotal_of_absent {key : SalesRec → String} {rs : List SalesRec} {k : String}
    (h : k ∉ keysOf key rs) : groupTotal key rs k = 0 := by
  unfold groupTotal
  rw [filter_key_eq_nil h]
  rfl

theorem monthlyOf_of_absent {key : SalesRec → String} {rs : List SalesRec} {k : String}
    (h : k ∉ keysOf key rs) : monthlyOf key rs k = [] := by
  unfold monthlyOf monthsOf
  rw [filter_key_eq_nil h]
  rfl

/-! ### Sum-splitting lemmas for total conservation -/

theorem sum_map_filter_split (p : SalesRec → Bool) (l : List SalesRec) :
    (((l.filter p).map SalesRec.quantity).sum : Int) +
      ((l.filter (fun r => !(p r))).map SalesRec.quantity).sum =
    (l.map SalesRec.quantity).sum := by
  induction l with
  | nil => simp
  | cons a l ih =>
    by_cases hp : p a
    · simp [List.filter_cons, hp]
      omega
    · simp [List.filter_cons, hp]
      omega

theorem sum_groupTotal_of_cover (key : SalesRec → String) :
    ∀ (ks : List String) (rs : List SalesRec), ks.Nodup → (∀ r ∈ rs, key r ∈ ks) →
    (ks.map (fun k => groupTotal key rs k)).sum = (rs.map SalesRec.quantity).sum := by
  intro ks
  induction ks with
  | nil =>
    intro rs _ hcov
    have hrs : rs = [] := by
      cases rs with
      | nil => rfl
      | cons r rs' => exact absurd (hcov r (List.mem_cons_self r rs')) (List.not_mem_nil _)
    subst hrs
    simp
  | cons k ks ih =>
    intro rs hnd hcov
    have hknotin : k ∉ ks := (List.nodup_cons.mp hnd).1
    have hndks : ks.Nodup := (List.nodup_cons.mp hnd).2
    have hmap : ∀ k' ∈ ks, groupTotal key rs k' =
        groupTotal key (rs.filter (fun r => !(key r == k))) k' := by
      intro k' hk'
      have hkk : k' ≠ k := fun e => hknotin (e ▸ hk')
      have hf : List.filter (fun a => (key a == k') && !(key a == k)) rs =
          List.filter (fun r => key r == k') rs := by
        apply List.filter_congr
        intro r _
        by_cases h : key r = k'
        · simp [h, hkk]
        · simp [h]
      unfold groupTotal
      rw [List.filter_filter, hf]
    have hcov' : ∀ r ∈ rs.filter (fun r => !(key r == k)), key r ∈ ks := by
      intro r hr
      rcases List.mem_filter.mp hr with ⟨hrs, hne⟩
      rw [Bool.not_eq_true', beq_eq_false_iff_ne] at hne
      rcases List.mem_cons.mp (hcov r hrs) with h | h
      · exact absurd h hne
      · exact h
    rw [List.map_cons, List.sum_cons, List.map_congr_left hmap,
      ih (rs.filter (fun r => !(key r == k))) hndks hcov']
    exact sum_map_filter_split (fun r => key r == k) rs

/-! ### Claim theorems -/

/-- C3: for any key selector and any record list, the sum of the per-key
totals of the aggregation equals the sum of the quantities of the input
records. -/
theorem aggregate_total_conservation (key : SalesRec → String) (rs : List SalesRec) :
    ((keysOf key rs).map (fun k => groupTotal key rs k)).sum =
      (rs.map SalesRec.quantity).sum :=
  sum_groupTotal_of_cover key (keysOf key rs) rs (List.nodup_dedup _)
    (fun _ hr => List.mem_dedup.mpr (List.mem_map_of_mem key hr))

/-- C8: the date-cutoff filter keeps a record exactly when it is an input
record whose (parsed) purchase date is at most the cutoff; in particular no
other record is preserved. -/
theorem filterToCutoff_mem_iff (cutoff : Int) (rs : List SalesRec) (r : SalesRec) :
    r ∈ filterToCutoff cutoff rs ↔
      r ∈ rs ∧ ∃ d, r.purchase_date = some d ∧ d ≤ cutoff := by
  unfold filterToCutoff
  rw [List.mem_filter]
  constructor
  · rintro ⟨hmem, hcond⟩
    refine ⟨hmem, ?_⟩
    cases hd : r.purchase_date with
    | none => rw [hd] at hcond; exact absurd hcond (by simp)
    | some d =>
      rw [hd] at hcond
      exact ⟨d, rfl, by simpa using hcond⟩
  · rintro ⟨hmem, d, hd, hle⟩
    exact ⟨hmem, by rw [hd]; simpa using hle⟩

/-- C10: a record whose purchase date failed to parse (pandas `NaT`,
modelled as `none`) is silently excluded by the date-cutoff filter; the
filter is a total function, so no error is raised. -/
theorem filterToCutoff_drops_unparseable (cutoff : Int) (rs : List SalesRec)
    (r : SalesRec) (hr : r.purchase_date = none) : r ∉ filterToCutoff cutoff rs := by
  intro hmem
  rcases (filterToCutoff_mem_iff cutoff rs r).mp hmem with ⟨_, d, hd, _⟩
  rw [hr] at hd
  exact Option.noConfusion hd

theorem filterToCutoff_drops_unparseable_witness :
    (SalesRec.mk ("X-1") ("P1") none 1 1).purchase_date = none ∧
      SalesRec.mk ("X-1") ("P1") none 1 1 ∉
        filterToCutoff 100 [SalesRec.mk ("X-1") ("P1") none 1 1] :=
  ⟨rfl, filterToCutoff_drops_unparseable 100 [SalesRec.mk ("X-1") ("P1") none 1 1]
    (SalesRec.mk ("X-1") ("P1") none 1 1) rfl⟩

/-- C6 (code behaviour at the claimed input): with an empty 2024 record
list and a single 2025 record of quantity 7, both table builders raise
`KeyError` (the empty `pd.DataFrame([])` has no `asin` / `sku` column),
instead of returning a comparison table with zero totals for 2024. -/
theorem emptyYear_raises_keyerror :
    createComparisonTable [] [SalesRec.mk ("B-1") ("P2") (some 0) 7 3] =
        Except.error ("KeyError asin") ∧
      createSkuLevelData [] [SalesRec.mk ("B-1") ("P2") (some 0) 7 3] =
        Except.error ("KeyError sku") :=
  ⟨rfl, rfl⟩

/-! ### Percent-change policy -/

theorem pctPolicy_changePct (base diff : Int) : pctPolicy base diff (changePct base diff) := by
  constructor
  · intro hpos
    simp [changePct, hpos]
  · intro hzero
    simp [changePct, hzero]

/-- C1: in both comparison outputs, every row's percent-change equals the
rounded ratio of difference to the 2024 total when that total is positive,
and is exactly 0 when the 2024 total is 0; the zero-base case is an
ordinary value, not an error. -/
theorem comparison_change_pct_policy (rs24 rs25 : List SalesRec)
    (crows : List CompRow) (srows : List SkuRow)
    (hc : createComparisonTable rs24 rs25 = Except.ok crows)
    (hs : createSkuLevelData rs24 rs25 = Except.ok srows) :
    (∀ row ∈ crows, pctPolicy row.total_2024 row.difference row.change_pct) ∧
      (∀ row ∈ srows, pctPolicy row.total_2024 row.difference row.change_pct) := by
  constructor
  · intro row hrow
    rw [createComparisonTable_ok hc] at hrow
    rcases List.mem_map.mp hrow with ⟨k, _, rfl⟩
    exact pctPolicy_changePct _ _
  · intro row hrow
    rw [createSkuLevelData_ok hs] at hrow
    rcases List.mem_map.mp hrow with ⟨s, _, rfl⟩
    exact pctPolicy_changePct _ _

/-! ### Counting rows per key -/

theorem nodup_keysOf (key : SalesRec → String) (rs : List SalesRec) :
    (keysOf key rs).Nodup := List.nodup_dedup _

theorem length_filter_beq_of_nodup (l : List String) (hl : l.Nodup) (k : String) :
    (l.filter (fun x => x == k)).length = if k ∈ l then 1 else 0 := by
  induction l with
  | nil => simp
  | cons a l ih =>
    rcases List.nodup_cons.mp hl with ⟨ha, hl'⟩
    by_cases h : a = k
    · subst h
      simp [List.filter_cons, ih hl', ha]
    · have hka : ¬ k = a := fun hh => h hh.symm
      simp [List.filter_cons, h, ih hl', List.mem_cons, hka]

theorem length_filter_outerKeys (key : SalesRec → String)
    (rs24 rs25 : List SalesRec) (k : String) :
    ((outerKeys (keysOf key rs24) (keysOf key rs25)).filter (fun x => x == k)).length =
      if k ∈ keysOf key rs24 ∨ k ∈ keysOf key rs25 then 1 else 0 := by
  rw [length_filter_beq_of_nodup _
    (nodup_outerKeys (nodup_keysOf key rs24) (nodup_keysOf key rs25)) k]
  by_cases h : k ∈ keysOf key rs24 ∨ k ∈ keysOf key rs25
  · rw [if_pos (mem_outerKeys.mpr h), if_pos h]
  · rw [if_neg (fun hm => h (mem_outerKeys.mp hm)), if_neg h]

/-- C2: both comparison outputs are full outer joins on their key: a key
occurring in either year's aggregation has exactly one row (one ASIN row of
`create_comparison_table`, one SKU row of `create_sku_level_data`), and any
other key has none. -/
theorem comparison_full_outer_join (rs24 rs25 : List SalesRec)
    (crows : List CompRow) (srows : List SkuRow)
    (hc : createComparisonTable rs24 rs25 = Except.ok crows)
    (hs : createSkuLevelData rs24 rs25 = Except.ok srows) (k : String) :
    ((crows.filter (fun row => row.asin == k)).length =
        if k ∈ keysOf SalesRec.asin rs24 ∨ k ∈ keysOf SalesRec.asin rs25 then 1 else 0) ∧
      ((srows.filter (fun row => row.sku == k)).length =
        if k ∈ keysOf SalesRec.sku rs24 ∨ k ∈ keysOf SalesRec.sku rs25 then 1 else 0) := by
  constructor
  · rw [createComparisonTable_ok hc, List.filter_map, List.length_map]
    have hco : ((fun row : CompRow => row.asin == k) ∘ mkCompRow rs24 rs25) =
        fun k' => k' == k := rfl
    rw [hco, length_filter_outerKeys SalesRec.asin rs24 rs25 k]
  · rw [createSkuLevelData_ok hs, List.filter_map, List.length_map]
    have hcs : ((fun row : SkuRow => row.sku == k) ∘ mkSkuRow rs24 rs25) =
        fun k' => k' == k := rfl
    rw [hcs, length_filter_outerKeys SalesRec.sku rs24 rs25 k]

/-- C4: a key present in only one year has the other year's total filled
with 0 and the other year's monthly dict empty. -/
theorem comparison_missing_year_zero (rs24 rs25 : List SalesRec) (rows : List CompRow)
    (hok : createComparisonTable rs24 rs25 = Except.ok rows) (row : CompRow)
    (hrow : row ∈ rows) :
    (row.asin ∉ keysOf SalesRec.asin rs25 →
        row.total_2025 = 0 ∧ row.monthly_2025 = []) ∧
      (row.asin ∉ keysOf SalesRec.asin rs24 →
        row.total_2024 = 0 ∧ row.monthly_2024 = []) := by
  rw [createComparisonTable_ok hok] at hrow
  rcases List.mem_map.mp hrow with ⟨k, _, rfl⟩
  have hasin : (mkCompRow rs24 rs25 k).asin = k := rfl
  rw [hasin]
  constructor
  · intro h25
    exact ⟨groupTotal_of_absent h25, monthlyOf_of_absent h25⟩
  · intro h24
    exact ⟨groupTotal_of_absent h24, monthlyOf_of_absent h24⟩

/-- C5: the `all_skus` field of every comparison row is the sorted list of
distinct SKUs attached to that ASIN anywhere in the two years' records. -/
theorem comparison_all_skus_union (rs24 rs25 : List SalesRec) (rows : List CompRow)
    (hok : createComparisonTable rs24 rs25 = Except.ok rows) (row : CompRow)
    (hrow : row ∈ rows) :
    row.all_skus =
      sortedSet (((rs24 ++ rs25).filter (fun r => r.asin == row.asin)).map SalesRec.sku) := by
  rw [createComparisonTable_ok hok] at hrow
  rcases List.mem_map.mp hrow with ⟨k, _, rfl⟩
  show sortedSet (skusOf rs24 k ++ skusOf rs25 k) =
    sortedSet (((rs24 ++ rs25).filter (fun r => r.asin == k)).map SalesRec.sku)
  apply sortedSet_eq_of_mem_iff
  intro a
  simp only [List.mem_append, skusOf, mem_sortedSet, List.filter_append, List.map_append]

/-- C9: every SKU row's representative ASIN is the first 2024 ASIN of that
SKU when 2024 has one, else the first 2025 ASIN, else the sentinel; it is
always a definite string, never absent. -/
theorem sku_level_asin_resolution (rs24 rs25 : List SalesRec) (rows : List SkuRow)
    (hok : createSkuLevelData rs24 rs25 = Except.ok rows) (row : SkuRow)
    (hrow : row ∈ rows) :
    (∃ a, firstAsin rs24 row.sku = some a ∧ row.asin = a) ∨
      (firstAsin rs24 row.sku = none ∧
        ∃ a, firstAsin rs25 row.sku = some a ∧ row.asin = a) ∨
      (firstAsin rs24 row.sku = none ∧ firstAsin rs25 row.sku = none ∧
        row.asin = ("N/A")) := by
  rw [createSkuLevelData_ok hok] at hrow
  rcases List.mem_map.mp hrow with ⟨s, _, rfl⟩
  have hsku : (mkSkuRow rs24 rs25 s).sku = s := rfl
  rw [hsku]
  cases h24 : firstAsin rs24 s with
  | some a =>
    left
    exact ⟨a, rfl, by simp [mkSkuRow, h24]⟩
  | none =>
    cases h25 : firstAsin rs25 s with
    | some a =>
      right
      left
      exact ⟨rfl, a, rfl, by simp [mkSkuRow, h24, h25]⟩
    | none =>
      right
      right
      exact ⟨rfl, rfl, by simp [mkSkuRow, h24, h25]⟩

/-! ### Monthly breakdown projection -/

theorem pctPolicy_roundedIf (qa qb : Int) :
    pctPolicy qa (qb - qa)
      (round1 (if 0 < qa then (((qb : ℚ)) - ((qa : ℚ))) / ((qa : ℚ)) * 100 else 0)) := by
  unfold pctPolicy
  constructor
  · intro hpos
    rw [if_pos hpos]
    congr 1
    push_cast
    ring
  · intro hzero
    rw [if_neg (by omega)]
    norm_num [round1]

/-- C7: the monthly breakdown of a comparison row is an ordered sequence of
exactly 12 tuples, one per month 1..12, with quantities defaulting to 0 for
absent months, difference equal to the 2025 quantity minus the 2024
quantity, the same zero-division percent policy as the totals, and the same
projection function for the per-SKU and the per-ASIN views. -/
theorem monthly_breakdown_projection (ma mb : List (Nat × Int)) (i : Nat) (hi : i < 12) :
    monthlyBreakdownAsin = monthlyBreakdownSku ∧
      (monthlyBreakdownSku ma mb).length = 12 ∧
      (∀ m, m ∉ ma.map Prod.fst → mget ma m = 0) ∧
      ((monthlyBreakdownSku ma mb).getD i (MonthRow.mk ("") 0 0 0 0)).month_name =
        monthNames.getD i ("") ∧
      ((monthlyBreakdownSku ma mb).getD i (MonthRow.mk ("") 0 0 0 0)).qty_a =
        mget ma (i + 1) ∧
      ((monthlyBreakdownSku ma mb).getD i (MonthRow.mk ("") 0 0 0 0)).qty_b =
        mget mb (i + 1) ∧
      ((monthlyBreakdownSku ma mb).getD i (MonthRow.mk ("") 0 0 0 0)).difference =
        ((monthlyBreakdownSku ma mb).getD i (MonthRow.mk ("") 0 0 0 0)).qty_b -
          ((monthlyBreakdownSku ma mb).getD i (MonthRow.mk ("") 0 0 0 0)).qty_a ∧
      pctPolicy ((monthlyBreakdownSku ma mb).getD i (MonthRow.mk ("") 0 0 0 0)).qty_a
        ((monthlyBreakdownSku ma mb).getD i (MonthRow.mk ("") 0 0 0 0)).difference
        ((monthlyBreakdownSku ma mb).getD i (MonthRow.mk ("") 0 0 0 0)).change_pct := by
  have hrow : (monthlyBreakdownSku ma mb).getD i (MonthRow.mk ("") 0 0 0 0) =
      MonthRow.mk (monthNames.getD i ("")) (mget ma (i + 1)) (mget mb (i + 1))
        (mget mb (i + 1) - mget ma (i + 1))
        (round1 (if 0 < mget ma (i + 1) then
          (((mget mb (i + 1) : ℚ)) - ((mget ma (i + 1) : ℚ))) / ((mget ma (i + 1) : ℚ)) * 100
        else 0)) := by
    unfold monthlyBreakdownSku
    rw [List.getD_eq_getElem?_getD, List.getElem?_map, List.getElem?_range hi]
    rfl
  refine ⟨rfl, ?_, ?_, ?_, ?_, ?_, ?_, ?_⟩
  · unfold monthlyBreakdownSku
    rw [List.length_map, List.length_range]
  · intro m hm
    unfold mget
    have hnone : ma.find? (fun p => p.1 == m) = none := by
      rw [List.find?_eq_none]
      intro p hp
      simp only [beq_iff_eq]
      intro he
      exact hm (he ▸ List.mem_map_of_mem Prod.fst hp)
    rw [hnone]
  · rw [hrow]
  · rw [hrow]
  · rw [hrow]
  · rw [hrow]
  · rw [hrow]
    exact pctPolicy_roundedIf (mget ma (i + 1)) (mget mb (i + 1))

/-! ### Concrete test data for the witnesses -/

/-- Test records for 2024: two SKUs sharing ASIN P1. -/
def tR24 : List SalesRec :=
  [SalesRec.mk ("A-1") ("P1") (some 10) 10 1, SalesRec.mk ("A-2") ("P1") (some 11) 4 2]

/-- Test records for 2025: one SKU of ASIN P1 and a new ASIN P3. -/
def tR25 : List SalesRec :=
  [SalesRec.mk ("A-1") ("P1") (some 12) 15 1, SalesRec.mk ("C-1") ("P3") (some 13) 2 5]

/-- Comparison table of the test data. -/
def tCompRows : List CompRow := ((createComparisonTable tR24 tR25).toOption).getD []

/-- SKU-level table of the test data. -/
def tSkuRows : List SkuRow := ((createSkuLevelData tR24 tR25).toOption).getD []

/-- Placeholder row used only as a `getD` default in witnesses. -/
def junkCompRow : CompRow := CompRow.mk ("") [] ("") 0 0 0 0 [] []

/-- Placeholder row used only as a `getD` default in witnesses. -/
def junkSkuRow : SkuRow := SkuRow.mk ("") ("") 0 0 0 0 [] []

theorem getD_mem_of_lt {α : Type _} (l : List α) (i : Nat) (d : α) (h : i < l.length) :
    l.getD i d ∈ l := by
  rw [List.getD_eq_getElem?_getD, List.getElem?_eq_getElem h]
  exact List.getElem_mem h

theorem comparison_change_pct_policy_witness :
    (∀ row ∈ tCompRows, pctPolicy row.total_2024 row.difference row.change_pct) ∧
      (∀ row ∈ tSkuRows, pctPolicy row.total_2024 row.difference row.change_pct) :=
  comparison_change_pct_policy tR24 tR25 tCompRows tSkuRows rfl rfl

theorem comparison_full_outer_join_witness :
    ((tCompRows.filter (fun row => row.asin == ("P1"))).length =
        if ("P1") ∈ keysOf SalesRec.asin tR24 ∨ ("P1") ∈ keysOf SalesRec.asin tR25
        then 1 else 0) ∧
      ((tSkuRows.filter (fun row => row.sku == ("P1"))).length =
        if ("P1") ∈ keysOf SalesRec.sku tR24 ∨ ("P1") ∈ keysOf SalesRec.sku tR25
        then 1 else 0) :=
  comparison_full_outer_join tR24 tR25 tCompRows tSkuRows rfl rfl ("P1")

theorem comparison_missing_year_zero_witness :
    ((tCompRows.getD 1 junkCompRow).asin ∉ keysOf SalesRec.asin tR25 →
        (tCompRows.getD 1 junkCompRow).total_2025 = 0 ∧
          (tCompRows.getD 1 junkCompRow).monthly_2025 = []) ∧
      ((tCompRows.getD 1 junkCompRow).asin ∉ keysOf SalesRec.asin tR24 →
        (tCompRows.getD 1 junkCompRow).total_2024 = 0 ∧
          (tCompRows.getD 1 junkCompRow).monthly_2024 = []) :=
  comparison_missing_year_zero tR24 tR25 tCompRows rfl
    (tCompRows.getD 1 junkCompRow) (getD_mem_of_lt tCompRows 1 junkCompRow (by decide))

theorem comparison_all_skus_union_witness :
    (tCompRows.getD 0 junkCompRow).all_skus =
      sortedSet (((tR24 ++ tR25).filter
        (fun r => r.asin == (tCompRows.getD 0 junkCompRow).asin)).map SalesRec.sku) :=
  comparison_all_skus_union tR24 tR25 tCompRows rfl
    (tCompRows.getD 0 junkCompRow) (getD_mem_of_lt tCompRows 0 junkCompRow (by decide))

theorem sku_level_asin_resolution_witness :
    (∃ a, firstAsin tR24 (tSkuRows.getD 2 junkSkuRow).sku = some a ∧
        (tSkuRows.getD 2 junkSkuRow).asin = a) ∨
      (firstAsin tR24 (tSkuRows.getD 2 junkSkuRow).sku = none ∧
        ∃ a, firstAsin tR25 (tSkuRows.getD 2 junkSkuRow).sku = some a ∧
          (tSkuRows.getD 2 junkSkuRow).asin = a) ∨
      (firstAsin tR24 (tSkuRows.getD 2 junkSkuRow).sku = none ∧
        firstAsin tR25 (tSkuRows.getD 2 junkSkuRow).sku = none ∧
        (tSkuRows.getD 2 junkSkuRow).asin = ("N/A")) :=
  sku_level_asin_resolution tR24 tR25 tSkuRows rfl (tSkuRows.getD 2 junkSkuRow)
    (getD_mem_of_lt tSkuRows 2 junkSkuRow (by decide))

theorem monthly_breakdown_projection_witness :
    monthlyBreakdownAsin = monthlyBreakdownSku ∧
      (monthlyBreakdownSku [(1, 5)] [(2, 3)]).length = 12 ∧
      (∀ m, m ∉ ([(1, 5)] : List (Nat × Int)).map Prod.fst → mget [(1, 5)] m = 0) ∧
      ((monthlyBreakdownSku [(1, 5)] [(2, 3)]).getD 0 (MonthRow.mk ("") 0 0 0 0)).month_name =
        monthNames.getD 0 ("") ∧
      ((monthlyBreakdownSku [(1, 5)] [(2, 3)]).getD 0 (MonthRow.mk ("") 0 0 0 0)).qty_a =
        mget [(1, 5)] (0 + 1) ∧
      ((monthlyBreakdownSku [(1, 5)] [(2, 3)]).getD 0 (MonthRow.mk ("") 0 0 0 0)).qty_b =
        mget [(2, 3)] (0 + 1) ∧
      ((monthlyBreakdownSku [(1, 5)] [(2, 3)]).getD 0 (MonthRow.mk ("") 0 0 0 0)).difference =
        ((monthlyBreakdownSku [(1, 5)] [(2, 3)]).getD 0 (MonthRow.mk ("") 0 0 0 0)).qty_b -
          ((monthlyBreakdownSku [(1, 5)] [(2, 3)]).getD 0 (MonthRow.mk ("") 0 0 0 0)).qty_a ∧
      pctPolicy ((monthlyBreakdownSku [(1, 5)] [(2, 3)]).getD 0 (MonthRow.mk ("") 0 0 0 0)).qty_a
        ((monthlyBreakdownSku [(1, 5)] [(2, 3)]).getD 0 (MonthRow.mk ("") 0 0 0 0)).difference
        ((monthlyBreakdownSku [(1, 5)] [(2, 3)]).getD 0 (MonthRow.mk ("") 0 0 0 0)).change_pct :=
  monthly_breakdown_projection [(1, 5)] [(2, 3)] 0 (by norm_num)
